import Mathlib

/-!
Shallow embedding of `spacex-dash-app.py`: a Dash dashboard whose data logic
is two pandas callbacks over a CSV-loaded dataframe `spacex_df`.

The CSV schema (spec §6) guarantees columns `Launch Site` (string),
`Payload Mass (kg)` (numeric), `class` (integer 0 or 1), `Booster Version`
(string); accordingly a row is modelled with `outcomeClass : Fin 2` and the
payload as a rational number.
-/

namespace SpacexDash

/-- One CSV row of `spacex_launch_dash.csv` with the columns the app reads:
`Launch Site`, `Payload Mass (kg)`, `Booster Version`, `class`. -/
structure LaunchRecord where
  site : String
  payloadMassKg : Rat
  boosterVersion : String
  outcomeClass : Fin 2
  deriving DecidableEq, Repr

/-- The in-memory dataframe `spacex_df`, one element per CSV row, in file order. -/
abbrev LaunchDataset := List LaunchRecord

/-- The `Payload Mass (kg)` column of the dataframe, in row order. -/
def payloads (df : LaunchDataset) : List Rat := df.map (·.payloadMassKg)

/-- Embeds pandas `Series.min()`: `none` on an empty column (pandas yields NaN),
otherwise the least element. -/
def seriesMin : List Rat → Option Rat
  | [] => none
  | x :: xs => some (xs.foldl min x)

/-- Embeds pandas `Series.max()`: `none` on an empty column, otherwise the
greatest element. -/
def seriesMax : List Rat → Option Rat
  | [] => none
  | x :: xs => some (xs.foldl max x)

/-- Embeds Python `int()` on a float: truncation toward zero. -/
def pyInt (q : Rat) : Int := if 0 ≤ q then ⌊q⌋ else ⌈q⌉

/-- Embeds lines 17-18 and 62 of the app: `min_payload = spacex_df[payload_col].min()`,
`max_payload = spacex_df[payload_col].max()`, and the RangeSlider default
`value=[int(min_payload), int(max_payload)]`. `none` when the dataset is empty
(there the real app would fail at startup on `int(nan)`). -/
def sliderDefault (df : LaunchDataset) : Option (Int × Int) :=
  match seriesMin (payloads df), seriesMax (payloads df) with
  | some m, some M => some (pyInt m, pyInt M)
  | _, _ => none

/-- A pie-chart specification as produced by `px.pie(...)`: the values column,
the names column (parallel lists) and the title. -/
structure PieFig where
  labels : List String
  values : List Nat
  title : String
  deriving DecidableEq, Repr

/-- Lexicographic comparison of character lists by code point, as Python
compares strings. -/
def strLeList : List Char → List Char → Bool
  | [], _ => true
  | _ :: _, [] => false
  | a :: as, b :: bs =>
    if a.val.toNat < b.val.toNat then true
    else if b.val.toNat < a.val.toNat then false
    else strLeList as bs

/-- Python string ordering, used by pandas to sort `groupby` keys. -/
def strLe (a b : String) : Bool := strLeList a.data b.data

/-- Embeds line 79: `spacex_df[spacex_df['class'] == 1].groupby('Launch Site').size()`.
`groupby` emits one group per distinct key, keys sorted ascending, each with the
size of its group. -/
def successCounts (df : LaunchDataset) : List (String × Nat) :=
  let succ := df.filter (fun r => r.outcomeClass == 1)
  let sites := List.insertionSort (fun a b => strLe a b = true) (succ.map (·.site)).dedup
  sites.map (fun s => (s, succ.countP (fun r => r.site == s)))

/-- Embeds line 86: `filtered_df['class'].value_counts()`: one entry per distinct
value (first-occurrence order), counts sorted descending (stably). -/
def valueCounts (l : List (Fin 2)) : List (Fin 2 × Nat) :=
  List.insertionSort (fun a b => b.2 ≤ a.2) (l.dedup.map (fun c => (c, l.count c)))

/-- Embeds line 88: `outcome_counts['class'].replace(\x7b1: 'Success', 0: 'Failure'\x7d)`. -/
def relabelClass (c : Fin 2) : String := if c = 1 then "Success" else "Failure"

/-- Embeds the TASK 2 callback `update_pie_chart(selected_site)` (lines 75-90),
with the global `spacex_df` passed explicitly. -/
def update_pie_chart (spacex_df : LaunchDataset) (selected_site : String) : PieFig :=
  if selected_site = "ALL" then
    let success_counts := successCounts spacex_df
    { labels := success_counts.map (·.1),
      values := success_counts.map (·.2),
      title := "Total Successful Launches by Site" }
  else
    let filtered_df := spacex_df.filter (fun r => r.site == selected_site)
    let outcome_counts := valueCounts (filtered_df.map (·.outcomeClass))
    { labels := outcome_counts.map (fun p => relabelClass p.1),
      values := outcome_counts.map (·.2),
      title := "Success vs Failure for " ++ selected_site }

/-- A scatter-chart specification as produced by `px.scatter(...)` followed by
`fig.update_yaxes(tickvals=[0,1], ticktext=['Failure','Success'])`: the plotted
rows, the colour column, the title, and the y-axis tick values and tick texts. -/
structure ScatterFig where
  rows : List LaunchRecord
  colorColumn : String
  title : String
  yTickVals : List Nat
  yTickText : List String
  deriving DecidableEq, Repr

/-- Embeds the TASK 4 callback `update_scatter(selected_site, payload_range)`
(lines 98-126), with the global `spacex_df` passed explicitly. The redundant
conditional on line 109/120 always selects the `Booster Version` column. -/
def update_scatter (spacex_df : LaunchDataset) (selected_site : String)
    (payload_range : Rat × Rat) : ScatterFig :=
  let low := payload_range.1
  let high := payload_range.2
  let filtered_df := spacex_df.filter
    (fun r => decide (low ≤ r.payloadMassKg) && decide (r.payloadMassKg ≤ high))
  if selected_site = "ALL" then
    { rows := filtered_df,
      colorColumn := "Booster Version",
      title := "Correlation between Payload and Success for All Launch Sites",
      yTickVals := [0, 1],
      yTickText := ["Failure", "Success"] }
  else
    { rows := filtered_df.filter (fun r => r.site == selected_site),
      colorColumn := "Booster Version",
      title := "Correlation between Payload and Success for site " ++ selected_site,
      yTickVals := [0, 1],
      yTickText := ["Failure", "Success"] }

/-- The TASK 2 callback as a transform of the program state (the loaded
dataframe): the body only reads `spacex_df` (lines 79 and 84 construct fresh
frames; the mutations on lines 87-88 hit the local copy `outcome_counts`),
so the state component is returned as received. -/
def update_pie_chart_call (spacex_df : LaunchDataset) (selected_site : String) :
    LaunchDataset × PieFig :=
  (spacex_df, update_pie_chart spacex_df selected_site)

/-- The TASK 4 callback as a transform of the program state: its body only
reads `spacex_df` (lines 101-102 and 115 construct fresh frames `filtered_df`
and `site_df`), so the state component is returned as received. -/
def update_scatter_call (spacex_df : LaunchDataset) (selected_site : String)
    (payload_range : Rat × Rat) : LaunchDataset × ScatterFig :=
  (spacex_df, update_scatter spacex_df selected_site payload_range)

/-- Sample dataset from spec §8: three launches at sites A and B. -/
def sampleD : LaunchDataset :=
  [{ site := "A", payloadMassKg := 500, boosterVersion := "v1", outcomeClass := 1 },
   { site := "A", payloadMassKg := 800, boosterVersion := "v1", outcomeClass := 0 },
   { site := "B", payloadMassKg := 600, boosterVersion := "v2", outcomeClass := 1 }]

example : (update_pie_chart sampleD "ALL").labels = ["A", "B"] := by decide
example : (update_pie_chart sampleD "ALL").values = [1, 1] := by decide
example : (update_pie_chart sampleD "A").values.sum = 2 := by decide
example : (update_scatter sampleD "ALL" (0, 1000)).rows = sampleD := by decide
example : (update_scatter sampleD "A" (550, 1000)).rows.length = 1 := by decide
example : sliderDefault sampleD = some (500, 800) := by decide

/-! Helper lemmas about the embedded callbacks. -/

/-- The Boolean payload-range test of line 101. -/
def payloadMask (lo hi : Rat) (r : LaunchRecord) : Bool :=
  decide (lo ≤ r.payloadMassKg) && decide (r.payloadMassKg ≤ hi)

lemma update_scatter_rows_all (df : LaunchDataset) (lo hi : Rat) :
    (update_scatter df "ALL" (lo, hi)).rows = df.filter (payloadMask lo hi) := rfl

lemma update_scatter_rows_site (df : LaunchDataset) (s : String) (lo hi : Rat)
    (hs : s ≠ "ALL") :
    (update_scatter df s (lo, hi)).rows =
      (df.filter (payloadMask lo hi)).filter (fun r => r.site == s) := by
  unfold update_scatter
  simp only [if_neg hs]
  rfl

lemma update_scatter_rows_filter (df : LaunchDataset) (s : String) (lo hi : Rat) :
    (update_scatter df s (lo, hi)).rows =
      df.filter (fun r => payloadMask lo hi r && (s == "ALL" || r.site == s)) := by
  by_cases hs : s = "ALL"
  · subst hs
    rw [update_scatter_rows_all]
    refine (List.filter_congr ?_).symm
    intro r _
    simp [payloadMask]
  · rw [update_scatter_rows_site df s lo hi hs, List.filter_filter]
    refine List.filter_congr ?_
    intro r _
    have hfalse : (s == "ALL") = false := by simpa using hs
    rw [hfalse]
    simp [Bool.and_comm]

lemma count_filter_eq {α : Type} [DecidableEq α] (p : α → Bool) (l : List α) (a : α) :
    (l.filter p).count a = if p a = true then l.count a else 0 := by
  by_cases h : p a = true
  · rw [if_pos h, List.count_filter h]
  · rw [if_neg h]
    refine List.count_eq_zero.mpr ?_
    intro hmem
    exact h (List.mem_filter.mp hmem).2

lemma countP_site_eq_count (l : List LaunchRecord) (s : String) :
    l.countP (fun r => r.site == s) = (l.map (·.site)).count s := by
  rw [List.count_eq_countP, List.countP_map]
  rfl

lemma pie_all_labels_eq (df : LaunchDataset) :
    (update_pie_chart df "ALL").labels =
      List.insertionSort (fun a b => strLe a b = true)
        ((df.filter (fun r => r.outcomeClass == 1)).map (·.site)).dedup := by
  unfold update_pie_chart successCounts
  rw [if_pos rfl]
  simp only [List.map_map]
  exact List.map_id' _

lemma pie_all_values_eq (df : LaunchDataset) :
    (update_pie_chart df "ALL").values =
      (List.insertionSort (fun a b => strLe a b = true)
        ((df.filter (fun r => r.outcomeClass == 1)).map (·.site)).dedup).map
        (fun s => (df.filter (fun r => r.outcomeClass == 1)).countP (fun r => r.site == s)) := by
  unfold update_pie_chart successCounts
  rw [if_pos rfl]
  simp [List.map_map]

lemma mem_pie_all_labels (df : LaunchDataset) (s : String) :
    s ∈ (update_pie_chart df "ALL").labels ↔
      ∃ r ∈ df, r.site = s ∧ r.outcomeClass = 1 := by
  rw [pie_all_labels_eq, List.mem_insertionSort, List.mem_dedup, List.mem_map]
  constructor
  · rintro ⟨r, hr, hsite⟩
    obtain ⟨hrdf, hclass⟩ := List.mem_filter.mp hr
    exact ⟨r, hrdf, hsite, by simpa using hclass⟩
  · rintro ⟨r, hrdf, hsite, hclass⟩
    exact ⟨r, List.mem_filter.mpr ⟨hrdf, by simp [hclass]⟩, hsite⟩

lemma pie_all_values_sum (df : LaunchDataset) :
    (update_pie_chart df "ALL").values.sum =
      (df.filter (fun r => r.outcomeClass == 1)).length := by
  rw [pie_all_values_eq]
  set succ := df.filter (fun r => r.outcomeClass == 1) with hsucc
  have hperm := (List.perm_insertionSort (fun a b => strLe a b = true)
      ((succ.map (·.site)).dedup)).map
      (fun s => succ.countP (fun r => r.site == s))
  rw [hperm.sum_eq]
  have h2 : ((succ.map (·.site)).dedup).map (fun s => succ.countP (fun r => r.site == s)) =
      ((succ.map (·.site)).dedup).map (fun s => (succ.map (·.site)).count s) :=
    List.map_congr_left (fun s _ => countP_site_eq_count succ s)
  rw [h2, List.sum_map_count_dedup_eq_length, List.length_map]

lemma valueCounts_sum (l : List (Fin 2)) : ((valueCounts l).map (·.2)).sum = l.length := by
  unfold valueCounts
  have hperm := (List.perm_insertionSort (fun a b : Fin 2 × Nat => b.2 ≤ a.2)
      (l.dedup.map (fun c => (c, l.count c)))).map (fun p : Fin 2 × Nat => p.2)
  rw [hperm.sum_eq, List.map_map]
  exact List.sum_map_count_dedup_eq_length l

lemma mem_valueCounts_fst (l : List (Fin 2)) (c : Fin 2) :
    (∃ p ∈ valueCounts l, p.1 = c) ↔ c ∈ l := by
  unfold valueCounts
  constructor
  · rintro ⟨p, hp, hpc⟩
    obtain ⟨c', hc', heq⟩ := List.mem_map.mp ((List.mem_insertionSort _).mp hp)
    rw [← heq] at hpc
    rw [← hpc]
    exact List.mem_dedup.mp hc'
  · intro hc
    refine ⟨(c, l.count c), ?_, rfl⟩
    rw [List.mem_insertionSort]
    exact List.mem_map.mpr ⟨c, List.mem_dedup.mpr hc, rfl⟩

lemma relabelClass_inj (a b : Fin 2) : relabelClass a = relabelClass b ↔ a = b := by
  fin_cases a <;> fin_cases b <;> decide

lemma relabelClass_cases (c : Fin 2) :
    relabelClass c = "Success" ∨ relabelClass c = "Failure" := by
  fin_cases c
  · exact Or.inr (by decide)
  · exact Or.inl (by decide)

lemma pie_site_labels (df : LaunchDataset) (S : String) (hS : S ≠ "ALL") :
    (update_pie_chart df S).labels =
      (valueCounts ((df.filter (fun r => r.site == S)).map (·.outcomeClass))).map
        (fun p => relabelClass p.1) := by
  unfold update_pie_chart
  rw [if_neg hS]

lemma pie_site_values (df : LaunchDataset) (S : String) (hS : S ≠ "ALL") :
    (update_pie_chart df S).values =
      (valueCounts ((df.filter (fun r => r.site == S)).map (·.outcomeClass))).map (·.2) := by
  unfold update_pie_chart
  rw [if_neg hS]

lemma pie_site_title (df : LaunchDataset) (S : String) (hS : S ≠ "ALL") :
    (update_pie_chart df S).title = "Success vs Failure for " ++ S := by
  unfold update_pie_chart
  rw [if_neg hS]

lemma pie_site_label_mem (df : LaunchDataset) (S : String) (hS : S ≠ "ALL") (c : Fin 2) :
    relabelClass c ∈ (update_pie_chart df S).labels ↔
      ∃ r ∈ df, r.site = S ∧ r.outcomeClass = c := by
  rw [pie_site_labels df S hS, List.mem_map]
  constructor
  · rintro ⟨p, hp, heq⟩
    have hc : p.1 = c := (relabelClass_inj p.1 c).mp heq
    have : c ∈ (df.filter (fun r => r.site == S)).map (·.outcomeClass) :=
      (mem_valueCounts_fst _ c).mp ⟨p, hp, hc⟩
    obtain ⟨r, hr, hclass⟩ := List.mem_map.mp this
    obtain ⟨hrdf, hsite⟩ := List.mem_filter.mp hr
    exact ⟨r, hrdf, by simpa using hsite, hclass⟩
  · rintro ⟨r, hrdf, hsite, hclass⟩
    have hc : c ∈ (df.filter (fun r => r.site == S)).map (·.outcomeClass) :=
      List.mem_map.mpr ⟨r, List.mem_filter.mpr ⟨hrdf, by simp [hsite]⟩, hclass⟩
    obtain ⟨p, hp, hpc⟩ := (mem_valueCounts_fst _ c).mpr hc
    exact ⟨p, hp, (relabelClass_inj p.1 c).mpr hpc ▸ rfl⟩

lemma foldl_min_le (xs : List Rat) (a : Rat) :
    xs.foldl min a ≤ a ∧ ∀ y ∈ xs, xs.foldl min a ≤ y := by
  induction xs generalizing a with
  | nil => exact ⟨le_refl a, by simp⟩
  | cons x xs ih =>
    simp only [List.foldl_cons]
    obtain ⟨h1, h2⟩ := ih (min a x)
    refine ⟨h1.trans (min_le_left a x), ?_⟩
    intro y hy
    rcases List.mem_cons.mp hy with heq | hmem
    · rw [heq]
      exact h1.trans (min_le_right a x)
    · exact h2 y hmem

lemma le_foldl_max (xs : List Rat) (a : Rat) :
    a ≤ xs.foldl max a ∧ ∀ y ∈ xs, y ≤ xs.foldl max a := by
  induction xs generalizing a with
  | nil => exact ⟨le_refl a, by simp⟩
  | cons x xs ih =>
    simp only [List.foldl_cons]
    obtain ⟨h1, h2⟩ := ih (max a x)
    refine ⟨(le_max_left a x).trans h1, ?_⟩
    intro y hy
    rcases List.mem_cons.mp hy with heq | hmem
    · rw [heq]
      exact (le_max_right a x).trans h1
    · exact h2 y hmem

lemma seriesMin_le {l : List Rat} {m : Rat} (h : seriesMin l = some m) :
    ∀ y ∈ l, m ≤ y := by
  cases l with
  | nil => simp [seriesMin] at h
  | cons x xs =>
    have h' : some (xs.foldl min x) = some m := h
    obtain rfl : xs.foldl min x = m := Option.some.inj h'
    intro y hy
    rcases List.mem_cons.mp hy with heq | hmem
    · rw [heq]
      exact (foldl_min_le xs x).1
    · exact (foldl_min_le xs x).2 y hmem

lemma le_seriesMax {l : List Rat} {M : Rat} (h : seriesMax l = some M) :
    ∀ y ∈ l, y ≤ M := by
  cases l with
  | nil => simp [seriesMax] at h
  | cons x xs =>
    have h' : some (xs.foldl max x) = some M := h
    obtain rfl : xs.foldl max x = M := Option.some.inj h'
    intro y hy
    rcases List.mem_cons.mp hy with heq | hmem
    · rw [heq]
      exact (le_foldl_max xs x).1
    · exact (le_foldl_max xs x).2 y hmem

/-- The rational one half, given in lowest terms so that it evaluates by
kernel reduction. -/
def halfRat : Rat := ⟨1, 2, by decide, Nat.coprime_one_left 2⟩

lemma halfRat_eq : halfRat = 1/2 := by
  rw [halfRat, Rat.mk'_eq_divInt, Rat.divInt_eq_div]
  norm_num

/-- Single-row dataset whose payload mass is not an integer. -/
def fracD : LaunchDataset :=
  [{ site := "CCAFS LC-40", payloadMassKg := halfRat, boosterVersion := "F9 v1.0",
     outcomeClass := 1 }]

/-! Theorems settling the claims. -/

/-- C1: for every dataset, site filter and payload range, the rows of the
scatter figure are exactly the rows of the dataset whose payload lies in
[lo, hi] and whose site matches the filter (or the filter is "ALL"); each
such row keeps its multiplicity, and row order is preserved (the output is a
sublist of the dataset). -/
theorem update_scatter_rows_exact (df : LaunchDataset) (s : String) (lo hi : Rat) :
    (∀ r : LaunchRecord, r ∈ (update_scatter df s (lo, hi)).rows ↔
      r ∈ df ∧ (lo ≤ r.payloadMassKg ∧ r.payloadMassKg ≤ hi) ∧ (s = "ALL" ∨ r.site = s)) ∧
    (∀ r : LaunchRecord, (update_scatter df s (lo, hi)).rows.count r =
      if (lo ≤ r.payloadMassKg ∧ r.payloadMassKg ≤ hi) ∧ (s = "ALL" ∨ r.site = s)
      then df.count r else 0) ∧
    (update_scatter df s (lo, hi)).rows.Sublist df := by
  have hcond : ∀ r : LaunchRecord,
      (payloadMask lo hi r && (s == "ALL" || r.site == s)) = true ↔
      (lo ≤ r.payloadMassKg ∧ r.payloadMassKg ≤ hi) ∧ (s = "ALL" ∨ r.site = s) := by
    intro r
    simp [payloadMask, Bool.and_eq_true, Bool.or_eq_true, beq_iff_eq, eq_comm (a := s)]
  rw [update_scatter_rows_filter]
  refine ⟨?_, ?_, List.filter_sublist df⟩
  · intro r
    rw [List.mem_filter, hcond r]
  · intro r
    rw [count_filter_eq]
    exact if_congr (hcond r) rfl rfl

/-- C2: with the site filter "ALL" the pie callback keeps only outcomeClass-1
rows, groups them by site: its counts sum to the number of outcomeClass-1 rows
of the dataset, every label is the site of some successful row, each site
appears at most once, and the title is "Total Successful Launches by Site". -/
theorem update_pie_chart_all_correct (df : LaunchDataset) :
    (update_pie_chart df "ALL").title = "Total Successful Launches by Site" ∧
    (update_pie_chart df "ALL").values.sum =
      (df.filter (fun r => r.outcomeClass == 1)).length ∧
    (∀ lab ∈ (update_pie_chart df "ALL").labels,
      ∃ r ∈ df, r.outcomeClass = 1 ∧ r.site = lab) ∧
    (update_pie_chart df "ALL").labels.Nodup := by
  refine ⟨rfl, pie_all_values_sum df, ?_, ?_⟩
  · intro lab hlab
    obtain ⟨r, hrdf, hsite, hclass⟩ := (mem_pie_all_labels df lab).mp hlab
    exact ⟨r, hrdf, hclass, hsite⟩
  · rw [pie_all_labels_eq]
    exact (List.perm_insertionSort _ _).nodup_iff.mpr (List.nodup_dedup _)

/-- C3: with a site filter S other than "ALL" the pie callback restricts to
rows of site S and groups them by outcome class: its counts sum to the number
of rows with site S, every label is "Success" or "Failure", each of the two
labels is present exactly when a matching row exists, and the title is
"Success vs Failure for " followed by S. -/
theorem update_pie_chart_site_correct (df : LaunchDataset) (S : String)
    (hS : S ≠ "ALL") :
    (update_pie_chart df S).title = "Success vs Failure for " ++ S ∧
    (update_pie_chart df S).values.sum = (df.filter (fun r => r.site == S)).length ∧
    (∀ lab ∈ (update_pie_chart df S).labels, lab = "Success" ∨ lab = "Failure") ∧
    ("Success" ∈ (update_pie_chart df S).labels ↔
      ∃ r ∈ df, r.site = S ∧ r.outcomeClass = 1) ∧
    ("Failure" ∈ (update_pie_chart df S).labels ↔
      ∃ r ∈ df, r.site = S ∧ r.outcomeClass = 0) := by
  have hsucc : "Success" = relabelClass 1 := by decide
  have hfail : "Failure" = relabelClass 0 := by decide
  refine ⟨pie_site_title df S hS, ?_, ?_, ?_, ?_⟩
  · rw [pie_site_values df S hS, valueCounts_sum, List.length_map]
  · intro lab hlab
    rw [pie_site_labels df S hS] at hlab
    obtain ⟨p, _, heq⟩ := List.mem_map.mp hlab
    rw [← heq]
    exact relabelClass_cases p.1
  · rw [hsucc]
    exact pie_site_label_mem df S hS 1
  · rw [hfail]
    exact pie_site_label_mem df S hS 0

/-- C3 witness: at the spec §8 sample dataset and site "A" the figure counts
one success and one failure, with both labels present. -/
theorem update_pie_chart_site_correct_witness :
    (update_pie_chart sampleD "A").title = "Success vs Failure for " ++ "A" ∧
    (update_pie_chart sampleD "A").values.sum =
      (sampleD.filter (fun r => r.site == "A")).length ∧
    (∀ lab ∈ (update_pie_chart sampleD "A").labels, lab = "Success" ∨ lab = "Failure") ∧
    ("Success" ∈ (update_pie_chart sampleD "A").labels ↔
      ∃ r ∈ sampleD, r.site = "A" ∧ r.outcomeClass = 1) ∧
    ("Failure" ∈ (update_pie_chart sampleD "A").labels ↔
      ∃ r ∈ sampleD, r.site = "A" ∧ r.outcomeClass = 0) :=
  update_pie_chart_site_correct sampleD "A" (by decide)

/-- C10: with the site filter "ALL" the pie callback lists a site exactly when
the dataset has at least one outcomeClass-1 row there; sites with only
outcomeClass-0 rows are omitted rather than given a zero count, and every
listed count is positive. -/
theorem pie_all_site_present_iff (df : LaunchDataset) (s : String) :
    (s ∈ (update_pie_chart df "ALL").labels ↔
      ∃ r ∈ df, r.site = s ∧ r.outcomeClass = 1) ∧
    (∀ v ∈ (update_pie_chart df "ALL").values, 0 < v) := by
  refine ⟨mem_pie_all_labels df s, ?_⟩
  intro v hv
  rw [pie_all_values_eq] at hv
  obtain ⟨s', hs', heq⟩ := List.mem_map.mp hv
  have hmem : s' ∈ (df.filter (fun r => r.outcomeClass == 1)).map (·.site) :=
    List.mem_dedup.mp ((List.mem_insertionSort _).mp hs')
  obtain ⟨r, hr, hsite⟩ := List.mem_map.mp hmem
  rw [← heq]
  exact List.countP_pos_iff.mpr ⟨r, hr, by simp [hsite]⟩

/-- C8: both callbacks are pure reads of the loaded dataframe: as state
transforms they return the dataset exactly as received, and their figure
output is a function of the inputs alone (re-invocation yields the same
figure). -/
theorem callbacks_preserve_dataset (df : LaunchDataset) (s : String) (pr : Rat × Rat) :
    (update_pie_chart_call df s).1 = df ∧
    (update_scatter_call df s pr).1 = df ∧
    (update_pie_chart_call df s).2 = update_pie_chart df s ∧
    (update_scatter_call df s pr).2 = update_scatter df s pr :=
  ⟨rfl, rfl, rfl, rfl⟩

/-- C9: for every dataset, site filter and payload range, the scatter figure
fixes the y-axis ticks to values [0, 1] with texts ["Failure", "Success"],
pairing tick 0 with "Failure" and tick 1 with "Success". -/
theorem update_scatter_yaxis_ticks (df : LaunchDataset) (s : String) (lo hi : Rat) :
    (update_scatter df s (lo, hi)).yTickVals = [0, 1] ∧
    (update_scatter df s (lo, hi)).yTickText = ["Failure", "Success"] ∧
    (update_scatter df s (lo, hi)).yTickVals.zip (update_scatter df s (lo, hi)).yTickText =
      [(0, "Failure"), (1, "Success")] := by
  unfold update_scatter
  by_cases hs : s = "ALL" <;> simp [hs]

/-- C4: a site filter that is neither "ALL" nor the site of any dataset row
yields an empty pie aggregate (no labels, no values) and an empty scatter row
set, for any payload range; both callbacks are total, so no error is raised. -/
theorem unknown_site_empty (df : LaunchDataset) (S : String) (lo hi : Rat)
    (hS : S ≠ "ALL") (habs : ∀ r ∈ df, r.site ≠ S) :
    (update_pie_chart df S).labels = [] ∧
    (update_pie_chart df S).values = [] ∧
    (update_scatter df S (lo, hi)).rows = [] := by
  have hfil : df.filter (fun r => r.site == S) = [] :=
    List.filter_eq_nil_iff.mpr (fun r hr hc => habs r hr (by simpa using hc))
  refine ⟨?_, ?_, ?_⟩
  · rw [pie_site_labels df S hS, hfil]
    rfl
  · rw [pie_site_values df S hS, hfil]
    rfl
  · rw [update_scatter_rows_site df S lo hi hS]
    refine List.filter_eq_nil_iff.mpr ?_
    intro r hr hc
    exact habs r (List.mem_of_mem_filter hr) (by simpa using hc)

/-- C4 witness: site "C" occurs nowhere in the sample dataset, and both
callbacks return empty results for it. -/
theorem unknown_site_empty_witness :
    (update_pie_chart sampleD "C").labels = [] ∧
    (update_pie_chart sampleD "C").values = [] ∧
    (update_scatter sampleD "C" (0, 1000)).rows = [] :=
  unknown_site_empty sampleD "C" 0 1000 (by decide) (by decide)

/-- C5: an inverted payload range (high < low), or one lying entirely below or
entirely above every payload in the dataset, makes the scatter callback return
an empty row set for any site filter; the function is total, so no error is
raised. -/
theorem invalid_range_empty (df : LaunchDataset) (s : String) (lo hi : Rat)
    (h : hi < lo ∨ (∀ r ∈ df, r.payloadMassKg < lo) ∨
      (∀ r ∈ df, hi < r.payloadMassKg)) :
    (update_scatter df s (lo, hi)).rows = [] := by
  rw [update_scatter_rows_filter]
  refine List.filter_eq_nil_iff.mpr ?_
  intro r hr hcond
  have hmask : payloadMask lo hi r = true := (Bool.and_eq_true_iff.mp hcond).1
  obtain ⟨h1, h2⟩ : lo ≤ r.payloadMassKg ∧ r.payloadMassKg ≤ hi := by
    simpa [payloadMask] using hmask
  rcases h with hlt | hall | hall
  · exact absurd (h1.trans h2) (not_le.mpr hlt)
  · exact absurd h1 (not_le.mpr (hall r hr))
  · exact absurd h2 (not_le.mpr (hall r hr))

/-- C5 witness: the inverted range [1000, 0] filters out every sample row. -/
theorem invalid_range_empty_witness :
    (update_scatter sampleD "ALL" (1000, 0)).rows = [] :=
  invalid_range_empty sampleD "ALL" 1000 0 (Or.inl (by norm_num))

/-- C6 counterexample: on a dataset whose single payload is 1/2 kg, the
slider default is (0, 0) while the exact payload minimum and maximum are 1/2,
so the default low is not the exact dataset minimum (nor the high the exact
maximum): `int()` truncates. -/
theorem sliderDefault_not_exact :
    halfRat = 1/2 ∧
    seriesMin (payloads fracD) = some halfRat ∧
    seriesMax (payloads fracD) = some halfRat ∧
    sliderDefault fracD = some (0, 0) ∧
    ¬ (((0 : Int) : Rat) = halfRat) := by
  refine ⟨halfRat_eq, by decide, by decide, by decide, by decide⟩

/-- C6 amended: the slider default is the Python `int()` truncation toward
zero of the dataset's exact payload minimum and maximum; for non-negative
bounds each default differs from the exact bound by less than one, and they
coincide with the exact bounds whenever those are integers. -/
theorem sliderDefault_truncated (df : LaunchDataset) (m M : Rat)
    (hm : seriesMin (payloads df) = some m)
    (hM : seriesMax (payloads df) = some M) :
    sliderDefault df = some (pyInt m, pyInt M) ∧
    (0 ≤ m → (pyInt m : Rat) ≤ m ∧ m < pyInt m + 1) ∧
    (0 ≤ M → (pyInt M : Rat) ≤ M ∧ M < pyInt M + 1) ∧
    (m.den = 1 → (pyInt m : Rat) = m) ∧
    (M.den = 1 → (pyInt M : Rat) = M) := by
  have hdef : sliderDefault df = some (pyInt m, pyInt M) := by
    unfold sliderDefault
    rw [hm, hM]
  have htrunc : ∀ q : Rat, 0 ≤ q → (pyInt q : Rat) ≤ q ∧ q < pyInt q + 1 := by
    intro q hq
    unfold pyInt
    rw [if_pos hq]
    exact ⟨Int.floor_le q, Int.lt_floor_add_one q⟩
  have hint : ∀ q : Rat, q.den = 1 → (pyInt q : Rat) = q := by
    intro q hq
    have hnum : (q.num : Rat) = q := (Rat.den_eq_one_iff q).mp hq
    unfold pyInt
    by_cases h : 0 ≤ q
    · rw [if_pos h, ← hnum, Int.floor_intCast]
    · rw [if_neg h, ← hnum, Int.ceil_intCast]
  exact ⟨hdef, htrunc m, htrunc M, hint m, hint M⟩

/-- C6 amended witness: on the sample dataset the slider default is the
truncation of (500, 800), which coincides with the exact integral bounds. -/
theorem sliderDefault_truncated_witness :
    sliderDefault sampleD = some (pyInt 500, pyInt 800) ∧
    (0 ≤ (500 : Rat) → (pyInt 500 : Rat) ≤ 500 ∧ (500 : Rat) < pyInt 500 + 1) ∧
    (0 ≤ (800 : Rat) → (pyInt 800 : Rat) ≤ 800 ∧ (800 : Rat) < pyInt 800 + 1) ∧
    ((500 : Rat).den = 1 → (pyInt 500 : Rat) = 500) ∧
    ((800 : Rat).den = 1 → (pyInt 800 : Rat) = 800) :=
  sliderDefault_truncated sampleD 500 800 (by decide) (by decide)

/-- C7: with site filter "ALL" and the payload range equal to the dataset's
exact payload minimum and maximum, the scatter callback keeps every row of the
dataset. -/
theorem full_range_includes_all (df : LaunchDataset) (lo hi : Rat)
    (hlo : seriesMin (payloads df) = some lo)
    (hhi : seriesMax (payloads df) = some hi) :
    (update_scatter df "ALL" (lo, hi)).rows = df := by
  rw [update_scatter_rows_all]
  refine List.filter_eq_self.mpr ?_
  intro r hr
  have hp : r.payloadMassKg ∈ payloads df := List.mem_map.mpr ⟨r, hr, rfl⟩
  have h1 := seriesMin_le hlo _ hp
  have h2 := le_seriesMax hhi _ hp
  simp [payloadMask, h1, h2]

/-- C7 witness: [500, 800] is the sample dataset's exact payload range and the
scatter callback keeps all three rows. -/
theorem full_range_includes_all_witness :
    (update_scatter sampleD "ALL" (500, 800)).rows = sampleD :=
  full_range_includes_all sampleD 500 800 (by decide) (by decide)

end SpacexDash
